import Mathlib

/-!
Shallow embedding of the foodgram backend core (backend/api of the
repository): the data model of `api/models.py`, the shopping-cart
aggregation and membership endpoints of `api/views.py`, and the recipe
create/update logic of `api/serializers.py`.

Tables are lists of rows in insertion order; the Django ORM calls are
translated operation by operation.  Fallible request handlers return
`Except` (a raised exception carries no store, so a handler that errors
commits nothing of its own), except where the Python code itself catches
the exception and turns it into an HTTP response, which is modelled as an
explicit response value.
-/

namespace Foodgram

/-- Row of `Ingredient` (api/models.py): name and measurement unit.
The (name, measurement_unit) pair is unique
(constraint unique_measurement_unit_name). -/
structure Ingredient where
  id : Nat
  name : String
  measurement_unit : String
deriving DecidableEq, Repr

/-- Row of `Recipe` (api/models.py).  `image` stands for the stored image
path, `author` for the user id of the ForeignKey, `pub_date` is omitted
(auto-set, never read by the embedded code).  `short_link` is the
CharField populated by `Recipe.save`. -/
structure Recipe where
  id : Nat
  name : String
  text : String
  cooking_time : Nat
  image : String
  author : Nat
  short_link : String
deriving DecidableEq, Repr

/-- Row of the join table `RecipeIngredient` (api/models.py).  The
`ingredient` ForeignKey is embedded as the referenced `Ingredient` row,
which models the SQL join `ingredient__name` /
`ingredient__measurement_unit` used by the aggregation query. -/
structure RecipeIngredientRow where
  recipe : Nat
  ingredient : Ingredient
  amount : Nat
deriving DecidableEq, Repr

/-- The relational store: one list per table, rows in insertion order.
`recipe_tags` is the `Recipe.tags` many-to-many table as (recipe id,
tag id) pairs; `favorites` and `shopping_cart` hold (user id, recipe id)
pairs; `subscriptions` holds (author id, subscriber id) pairs, the field
order of `Subscription` (api/models.py). -/
structure Store where
  recipes : List Recipe
  recipe_ingredients : List RecipeIngredientRow
  recipe_tags : List (Nat × Nat)
  favorites : List (Nat × Nat)
  shopping_cart : List (Nat × Nat)
  subscriptions : List (Nat × Nat)
deriving DecidableEq, Repr

/-- The empty store. -/
def store0 : Store := ⟨[], [], [], [], [], []⟩

/-! ## Short-link generation (api/models.py, `Recipe.get_short_link` and
`Recipe.save`) -/

/-- `get_object_or_404(Recipe, short_link=...)`: the first row matching
the unique `short_link` column, `none` when the lookup raises `Http404`. -/
def recipe_by_short_link (db : Store) (token : String) : Option Recipe :=
  (db.recipes.filter (fun r => r.short_link == token)).head?

/-- An HTTP-level outcome of a fully handled view. -/
inductive HttpResult where
  | redirect (url : String)
  | jsonError (status : Nat) (message : String)
deriving DecidableEq, Repr

/-- `redirect_to_recipe` (api/views.py): the whole body sits in
`try: ... except Exception: return Response(..., 500)`.  `Http404`
raised by `get_object_or_404` is a subclass of `Exception`, so the
missing-token path lands in the handler and returns the 500 response;
the found path builds `/recipes/<id>/` on the request host (`base`)
and redirects. -/
def redirect_to_recipe (db : Store) (base : String) (token : String) : HttpResult :=
  match recipe_by_short_link db token with
  | some recipe =>
      HttpResult.redirect (base ++ "/recipes/" ++ toString recipe.id ++ "/")
  | none =>
      HttpResult.jsonError 500 "Не удалось перенаправить по короткой ссылке"

/-- `Recipe.objects.filter(short_link=...).exists()`: the collision check
of `Recipe.get_short_link`. -/
def short_link_taken (db : Store) (s : String) : Bool :=
  db.recipes.any (fun r => r.short_link == s)

/-- The `ValueError` raised when `Recipe.get_short_link` exhausts its
attempt budget. -/
inductive GenError where
  | linkGenerationFailed
deriving DecidableEq, Repr

/-- The `for _ in range(attempt): ... else: raise ValueError` loop of
`Recipe.get_short_link` (api/models.py).  `collides` is the
`objects.filter(short_link=...).exists()` check, `draw i` the result of
the i-th `get_random_string(length=length)` call.  Returns the accepted
candidate (or `none` when the budget is exhausted and the `else` branch
raises) together with the total number of draws made; `i` counts the
draws made so far, `k` the remaining iterations. -/
def short_link_loop (collides : String → Bool) (draw : Nat → String) :
    Nat → Nat → Option String × Nat
  | i, 0 => (none, i)
  | i, k + 1 =>
      if collides (draw i) then short_link_loop collides draw (i + 1) k
      else (some (draw i), i + 1)

/-- `Recipe.get_short_link(length=10, attempt=10)` run from a fresh
loop: result and number of draws. -/
def get_short_link (collides : String → Bool) (draw : Nat → String)
    (attempt : Nat) : Option String × Nat :=
  short_link_loop collides draw 0 attempt

/-- An SQL INSERT into the `Recipe` table. -/
def recipe_insert (db : Store) (r : Recipe) : Store :=
  { db with recipes := db.recipes ++ [r] }

/-- `Recipe.save` (api/models.py): `if not self.short_link:
self.get_short_link()` — generation runs only when the field is the
empty string (the only falsy CharField value) — then `super().save()`
persists the row.  A `ValueError` from `get_short_link` propagates
before `super().save()` runs, so nothing is inserted; 10 is the
default `attempt` (and the default `length` fed to the draws). -/
def recipe_save (db : Store) (draw : Nat → String) (r : Recipe) :
    Except GenError Store :=
  if r.short_link == "" then
    match (get_short_link (short_link_taken db) draw 10).1 with
    | some link => Except.ok (recipe_insert db { r with short_link := link })
    | none => Except.error GenError.linkGenerationFailed
  else
    Except.ok (recipe_insert db r)

/-! ## Shopping-cart aggregation (api/views.py,
`RecipeViewSet.download_shopping_cart`) -/

/-- The grouping key of the aggregation query:
`.values('ingredient__name', 'ingredient__measurement_unit')`. -/
def row_key (r : RecipeIngredientRow) : String × String :=
  (r.ingredient.name, r.ingredient.measurement_unit)

/-- `RecipeIngredient.objects.filter(recipe__shopping_cart__user=user)`:
the join of `RecipeIngredient` with the user's `ShoppingCart` rows on the
recipe id.  The list order models the order in which the storage returns
the joined rows (the query emits no ORDER BY). -/
def cart_rows (db : Store) (user : Nat) : List RecipeIngredientRow :=
  (db.shopping_cart.filter (fun p => p.1 == user)).flatMap
    (fun p => db.recipe_ingredients.filter (fun row => row.recipe == p.2))

/-- First-occurrence deduplication: the order in which SQL GROUP BY
groups are modelled to come back, namely the first occurrence of each
key in the underlying row sequence.  `seen` holds keys already output. -/
def dedup_keep_first (seen : List (String × String)) :
    List (String × String) → List (String × String)
  | [] => []
  | k :: ks =>
      if k ∈ seen then dedup_keep_first seen ks
      else k :: dedup_keep_first (k :: seen) ks

/-- One row of the grouped queryset:
`.values(...).annotate(total_amount=Sum('amount'))`. -/
structure AggRow where
  name : String
  unit : String
  total_amount : Nat
deriving DecidableEq, Repr

/-- The grouped aggregation: one `AggRow` per distinct
(name, measurement_unit) key of `rows`, keyed rows in first-occurrence
order, each carrying `Sum('amount')` over its group. -/
def aggregate_rows (rows : List RecipeIngredientRow) : List AggRow :=
  (dedup_keep_first [] (rows.map row_key)).map (fun k =>
    { name := k.1
      unit := k.2
      total_amount :=
        ((rows.filter (fun r => row_key r == k)).map (fun r => r.amount)).sum })

/-- Outcome of `download_shopping_cart`: the CSV attachment (header row
and data rows as the `csv.writer` receives them) or an error response. -/
inductive DownloadResult where
  | file (header : List String) (rows : List (List String))
  | jsonError (status : Nat) (message : String)
deriving DecidableEq, Repr

/-- `RecipeViewSet.download_shopping_cart` (api/views.py): run the
grouped query; `if not ingredients.exists()` return the 400 response;
otherwise write the header row and one row
`[name, total_amount, measurement_unit]` per grouped ingredient, in
queryset order. -/
def download_shopping_cart (db : Store) (user : Nat) : DownloadResult :=
  let ingredients := aggregate_rows (cart_rows db user)
  if ingredients.isEmpty then
    DownloadResult.jsonError 400 "Список покупок пуст"
  else
    DownloadResult.file ["Ингредиент", "Количество", "Ед. изм."]
      (ingredients.map (fun i => [i.name, toString i.total_amount, i.unit]))

/-! ## Membership relations (api/serializers.py validate methods and
api/views.py delete handlers) -/

/-- The errors the membership endpoints raise.  Each constructor stands
for a `rest_framework.exceptions.ValidationError` (HTTP 400) raised by
the code: `unauthenticated` for the missing-user check, `alreadyExists`
for the duplicate check, `selfReference` for the self-subscription
check, `notFound` for a delete that matched zero rows (the error the
spec taxonomy labels NotFound: removal target absent, a client error). -/
inductive MembershipError where
  | unauthenticated
  | alreadyExists
  | selfReference
  | notFound
deriving DecidableEq, Repr

/-- `FavoriteSerializer.validate` + `.save()` (api/serializers.py,
driven by `RecipeViewSet.favorite`): reject a missing user, reject a
(user, recipe) pair that already exists, else insert the row. -/
def favorite_add (db : Store) (user : Option Nat) (recipe : Nat) :
    Except MembershipError Store :=
  match user with
  | none => Except.error MembershipError.unauthenticated
  | some u =>
      if db.favorites.any (fun p => p.1 == u && p.2 == recipe) then
        Except.error MembershipError.alreadyExists
      else
        Except.ok { db with favorites := db.favorites ++ [(u, recipe)] }

/-- `ShoppingCartSerializer.validate` + `.save()` (api/serializers.py,
driven by `RecipeViewSet.shopping_cart`): same shape as `favorite_add`
over the `shopping_cart` table. -/
def shopping_cart_add (db : Store) (user : Option Nat) (recipe : Nat) :
    Except MembershipError Store :=
  match user with
  | none => Except.error MembershipError.unauthenticated
  | some u =>
      if db.shopping_cart.any (fun p => p.1 == u && p.2 == recipe) then
        Except.error MembershipError.alreadyExists
      else
        Except.ok { db with shopping_cart := db.shopping_cart ++ [(u, recipe)] }

/-- `SubscriptionSerializer.validate` + `.save()` (api/serializers.py,
driven by `UserViewSet.subscribe`): reject a missing user, reject
subscriber == author, reject an existing (author, subscriber) pair,
else insert the row. -/
def subscription_add (db : Store) (user : Option Nat) (author : Nat) :
    Except MembershipError Store :=
  match user with
  | none => Except.error MembershipError.unauthenticated
  | some subscriber =>
      if subscriber == author then
        Except.error MembershipError.selfReference
      else if db.subscriptions.any
          (fun p => p.1 == author && p.2 == subscriber) then
        Except.error MembershipError.alreadyExists
      else
        Except.ok
          { db with subscriptions := db.subscriptions ++ [(author, subscriber)] }

/-- A storage-constraint violation on a raw INSERT. -/
inductive DbError where
  | checkViolation
  | uniqueViolation
deriving DecidableEq, Repr

/-- A raw INSERT into the `Subscription` table under the constraints of
`Subscription.Meta` (api/models.py): the CheckConstraint
`self_subscribe` (`~Q(author=F('subscriber'))`) and the UniqueConstraint
`unique_subscription` on (author, subscriber).  This is the
data-integrity level: it rejects a self row even when the application
check is bypassed. -/
def subscription_table_insert (rows : List (Nat × Nat))
    (author subscriber : Nat) : Except DbError (List (Nat × Nat)) :=
  if author == subscriber then
    Except.error DbError.checkViolation
  else if rows.any (fun p => p.1 == author && p.2 == subscriber) then
    Except.error DbError.uniqueViolation
  else
    Except.ok (rows ++ [(author, subscriber)])

/-- Subscription-table states reachable through the storage layer: start
empty; insert only through `subscription_table_insert` (so only rows the
constraints admit); delete any filtered subset. -/
inductive SubReach : List (Nat × Nat) → Prop where
  | nil : SubReach []
  | ins : ∀ rows author subscriber rows2, SubReach rows →
      subscription_table_insert rows author subscriber = Except.ok rows2 →
      SubReach rows2
  | del : ∀ rows f, SubReach rows → SubReach (rows.filter f)

/-- `RecipeViewSet.delete_from_favorites` (api/views.py):
`request.user.favorites.filter(recipe=recipe).delete()` returns the
number of deleted rows; zero raises the ValidationError, otherwise the
matching rows are gone and 204 is returned. -/
def delete_from_favorites (db : Store) (user recipe : Nat) :
    Except MembershipError Store :=
  let delete_count := db.favorites.countP (fun p => p.1 == user && p.2 == recipe)
  if delete_count == 0 then
    Except.error MembershipError.notFound
  else
    Except.ok
      { db with favorites :=
          db.favorites.filter (fun p => !(p.1 == user && p.2 == recipe)) }

/-- `RecipeViewSet.delete_from_shopping_cart` (api/views.py):
`request.user.shopping_cart.filter(recipe=recipe).delete()` returns the
number of deleted rows; zero raises the ValidationError, otherwise the
matching rows are gone and 204 is returned. -/
def delete_from_shopping_cart (db : Store) (user recipe : Nat) :
    Except MembershipError Store :=
  let delete_count :=
    db.shopping_cart.countP (fun p => p.1 == user && p.2 == recipe)
  if delete_count == 0 then
    Except.error MembershipError.notFound
  else
    Except.ok
      { db with shopping_cart :=
          db.shopping_cart.filter (fun p => !(p.1 == user && p.2 == recipe)) }

/-- `UserViewSet.unsubscribe` (api/views.py):
`Subscription.objects.filter(author=author, subscriber=request.user)
.delete()`; a zero count raises the ValidationError. -/
def unsubscribe (db : Store) (subscriber author : Nat) :
    Except MembershipError Store :=
  let delete_count :=
    db.subscriptions.countP (fun p => p.1 == author && p.2 == subscriber)
  if delete_count == 0 then
    Except.error MembershipError.notFound
  else
    Except.ok
      { db with subscriptions :=
          db.subscriptions.filter (fun p => !(p.1 == author && p.2 == subscriber)) }

/-! ## Recipe creation and update (api/serializers.py,
`RecipeCreateSerializer.create` / `.update`) -/

/-- One validated item of the `ingredients` payload:
`item['ingredient']` (a resolved `Ingredient` row) and `item['amount']`. -/
structure IngredientInput where
  ingredient : Ingredient
  amount : Nat
deriving DecidableEq, Repr

/-- The errors recipe creation can stop with. -/
inductive ApiError where
  | linkGenerationFailed
  | storageFault
deriving DecidableEq, Repr

/-- The `_add_ingredients` loop (api/serializers.py): one
`RecipeIngredient.objects.create(...)` INSERT per payload item, in
order.  Each INSERT commits the row before the next one runs; `ok`
injects storage faults by statement index (`idx` numbers the statements
of the request), and a fault stops the loop with the rows inserted so
far already in the store. -/
def add_ingredients_loop (ok : Nat → Bool) (idx : Nat) (recipe_id : Nat)
    (db : Store) : List IngredientInput → Store × Option ApiError
  | [] => (db, none)
  | item :: rest =>
      if ok idx then
        add_ingredients_loop ok (idx + 1) recipe_id
          { db with recipe_ingredients :=
              db.recipe_ingredients ++ [⟨recipe_id, item.ingredient, item.amount⟩] }
          rest
      else (db, some ApiError.storageFault)

/-- `recipe.tags.set(tags)`: replace the recipe's rows of the
many-to-many table with one row per given tag id. -/
def tags_set (db : Store) (recipe_id : Nat) (tags : List Nat) : Store :=
  { db with recipe_tags :=
      db.recipe_tags.filter (fun p => !(p.1 == recipe_id))
        ++ tags.map (fun t => (recipe_id, t)) }

/-- `RecipeCreateSerializer.create` (api/serializers.py) under Django's
default autocommit (each ORM statement commits on its own): set
`author` from the request user, `Recipe.objects.create(**validated_data)`
(which runs `Recipe.save`, so short-link generation can fail first),
then `recipe.tags.set(tags)`, then `_add_ingredients`.  Statement
index 0 is the recipe INSERT, 1 the tags write, 2.. the per-ingredient
INSERTs; `ok` injects a storage fault at any statement.  Returns the
store as committed so far plus the error, if any. -/
def recipe_create_body (ok : Nat → Bool) (draw : Nat → String) (db : Store)
    (author : Nat) (r : Recipe) (tags : List Nat)
    (ingredients : List IngredientInput) : Store × Option ApiError :=
  if ok 0 then
    match recipe_save db draw { r with author := author } with
    | Except.error _ => (db, some ApiError.linkGenerationFailed)
    | Except.ok db1 =>
        if ok 1 then
          add_ingredients_loop ok 2 r.id (tags_set db1 r.id tags) ingredients
        else (db1, some ApiError.storageFault)
  else (db, some ApiError.storageFault)

/-- Modelled from the spec: "each operation either fully completes or
fully fails within its request scope (atomic all-or-nothing),
particularly recipe creation together with its ingredient/tag
associations."  The request-scoped transaction demarcation is not in
the files under src/ (it lives in the Django project settings /
middleware); it is modelled as discard-on-error around the serializer
body embedded above: on any error the request's writes are rolled back
and the caller observes the original store. -/
def recipe_create_tx (ok : Nat → Bool) (draw : Nat → String) (db : Store)
    (author : Nat) (r : Recipe) (tags : List Nat)
    (ingredients : List IngredientInput) : Store × Option ApiError :=
  match recipe_create_body ok draw db author r tags ingredients with
  | (_, some e) => (db, some e)
  | (db2, none) => (db2, none)

/-- `RecipeCreateSerializer.update` (api/serializers.py):
`validated_data.pop('ingredients', None)` / `.pop('tags', None)`, then
`super().update(recipe, validated_data)` writes the remaining scalar
fields of the recipe row (modelled by the opaque row update `scalar`),
then `tags.set` only when a tags value was supplied, then — only when an
ingredients value was supplied — `recipe.ingredient_in_recipe.all()
.delete()` followed by `_add_ingredients` with the new list. -/
def recipe_update (db : Store) (recipe_id : Nat) (scalar : Recipe → Recipe)
    (tags : Option (List Nat)) (ingredients : Option (List IngredientInput)) :
    Store :=
  let upd := db.recipes.map (fun r => if r.id == recipe_id then scalar r else r)
  let db1 := { db with recipes := upd }
  let db2 := match tags with
    | none => db1
    | some ts => tags_set db1 recipe_id ts
  match ingredients with
  | none => db2
  | some l =>
      { db2 with recipe_ingredients :=
          db2.recipe_ingredients.filter (fun row => !(row.recipe == recipe_id))
            ++ l.map (fun it => ⟨recipe_id, it.ingredient, it.amount⟩) }

/-! ## Concrete fixtures used by the closed theorems -/

/-- A store holding one recipe with short link "abc". -/
def c1_store : Store :=
  { store0 with recipes := [⟨7, "Борщ", "Рецепт борща", 30, "img", 1, "abc"⟩] }

/-- Flour in grams. -/
def flour : Ingredient := ⟨1, "Мука", "г"⟩

/-- Egg counted in pieces. -/
def egg : Ingredient := ⟨2, "Яйцо", "шт"⟩

/-- Sugar in grams. -/
def sugar : Ingredient := ⟨3, "Сахар", "г"⟩

/-- The spec example: user 1's cart holds recipe 10 (flour 200, egg 2)
and recipe 20 (flour 300, sugar 50). -/
def c3_store : Store :=
  { store0 with
      recipe_ingredients :=
        [⟨10, flour, 200⟩, ⟨10, egg, 2⟩, ⟨20, flour, 300⟩, ⟨20, sugar, 50⟩]
      shopping_cart := [(1, 10), (1, 20)] }

/-- Same tables as `c3_store` up to row order: the two cart rows were
inserted in the other order. -/
def c4_store : Store :=
  { c3_store with shopping_cart := [(1, 20), (1, 10)] }

/-- A store holding one recipe whose short link is the string every
draw of the stub generator collides with. -/
def c5_store : Store :=
  { store0 with recipes := [⟨1, "Суп", "Рецепт супа", 15, "img", 1, "xxxxxxxxxx"⟩] }

/-- A recipe row not yet saved: its short link is still empty. -/
def c5_recipe : Recipe := ⟨2, "Каша", "Рецепт каши", 5, "img", 1, ""⟩

/-- A saved recipe row: its short link is already non-empty. -/
def c9_recipe : Recipe := ⟨3, "Чай", "Рецепт чая", 2, "img", 2, "zyx"⟩

end Foodgram
namespace Foodgram

/-! ## Helper lemmas -/

/-- Helper: when every draw in the window collides, the generation loop
runs its full budget and ends in the raising branch, having made exactly
one draw per iteration. -/
theorem short_link_loop_all_collide (collides : String → Bool) (draw : Nat → String) :
    ∀ (k i : Nat), (∀ j, j < k → collides (draw (i + j)) = true) →
      short_link_loop collides draw i k = (none, i + k) := by
  intro k
  induction k with
  | zero => intro i _; simp [short_link_loop]
  | succ n ih =>
      intro i h
      have h0 : collides (draw i) = true := by simpa using h 0 (Nat.succ_pos n)
      have h1 : ∀ j, j < n → collides (draw (i + 1 + j)) = true := by
        intro j hj
        have hh := h (j + 1) (by omega)
        have e : i + (j + 1) = i + 1 + j := by omega
        rw [e] at hh
        exact hh
      have hrec := ih (i + 1) h1
      have e2 : i + 1 + n = i + (n + 1) := by omega
      simp [short_link_loop, h0, hrec, e2]

/-- Helper: a successful `Recipe.save` inserts exactly one row, equal to
the given recipe in every field except possibly `short_link`. -/
theorem recipe_save_shape (db : Store) (draw : Nat → String) (r : Recipe) (db2 : Store)
    (h : recipe_save db draw r = Except.ok db2) :
    ∃ rr : Recipe, db2 = recipe_insert db rr ∧ rr.id = r.id ∧ rr.name = r.name ∧
      rr.text = r.text ∧ rr.cooking_time = r.cooking_time ∧ rr.image = r.image ∧
      rr.author = r.author := by
  unfold recipe_save at h
  by_cases hb : (r.short_link == "") = true
  · rw [if_pos hb] at h
    cases hg : (get_short_link (short_link_taken db) draw 10).1 with
    | none => rw [hg] at h; exact absurd h (by simp)
    | some link =>
        rw [hg] at h
        simp only [Except.ok.injEq] at h
        exact ⟨{ r with short_link := link }, h.symm, rfl, rfl, rfl, rfl, rfl, rfl⟩
  · rw [if_neg hb] at h
    simp only [Except.ok.injEq] at h
    exact ⟨r, h.symm, rfl, rfl, rfl, rfl, rfl, rfl⟩

/-- Helper: when the `_add_ingredients` loop finishes without a fault it
has appended exactly one `RecipeIngredient` row per payload item, in
order, and touched nothing else. -/
theorem add_ingredients_loop_ok (ok : Nat → Bool) (rid : Nat) :
    ∀ (l : List IngredientInput) (idx : Nat) (db : Store),
      (add_ingredients_loop ok idx rid db l).2 = none →
      (add_ingredients_loop ok idx rid db l).1 =
        { db with recipe_ingredients :=
            db.recipe_ingredients ++ l.map (fun it => ⟨rid, it.ingredient, it.amount⟩) } := by
  intro l
  induction l with
  | nil => intro idx db _; simp [add_ingredients_loop]
  | cons a l ih =>
      intro idx db h
      by_cases hok : ok idx = true
      · have h2 := h
        simp only [add_ingredients_loop, if_pos hok] at h2 ⊢
        rw [ih (idx + 1) _ h2]
        simp [List.append_assoc]
      · simp [add_ingredients_loop, hok] at h

/-- Helper: membership in the first-occurrence deduplication. -/
theorem mem_dedup_keep_first (k : String × String) :
    ∀ (l seen : List (String × String)),
      (k ∈ dedup_keep_first seen l ↔ k ∈ l ∧ k ∉ seen) := by
  intro l
  induction l with
  | nil => intro seen; simp [dedup_keep_first]
  | cons a l ih =>
      intro seen
      by_cases ha : a ∈ seen
      · simp only [dedup_keep_first, if_pos ha, ih, List.mem_cons]
        constructor
        · rintro ⟨hk, hs⟩
          exact ⟨Or.inr hk, hs⟩
        · rintro ⟨hka | hk, hs⟩
          · subst hka; exact absurd ha hs
          · exact ⟨hk, hs⟩
      · simp only [dedup_keep_first, if_neg ha, List.mem_cons, ih (a :: seen)]
        constructor
        · rintro (rfl | ⟨hk, hs⟩)
          · exact ⟨Or.inl rfl, ha⟩
          · simp only [List.mem_cons, not_or] at hs
            exact ⟨Or.inr hk, hs.2⟩
        · rintro ⟨hka | hk, hs⟩
          · exact Or.inl hka
          · by_cases hk2 : k = a
            · exact Or.inl hk2
            · exact Or.inr ⟨hk, by simp [hk2, hs]⟩

/-- Helper: the first-occurrence deduplication has no duplicate keys. -/
theorem nodup_dedup_keep_first :
    ∀ (l seen : List (String × String)), (dedup_keep_first seen l).Nodup := by
  intro l
  induction l with
  | nil => intro seen; simp [dedup_keep_first]
  | cons a l ih =>
      intro seen
      by_cases ha : a ∈ seen
      · simpa [dedup_keep_first, ha] using ih seen
      · simp only [dedup_keep_first, if_neg ha, List.nodup_cons]
        refine ⟨?_, ih (a :: seen)⟩
        intro hmem
        exact ((mem_dedup_keep_first a l (a :: seen)).mp hmem).2 (List.mem_cons_self a seen)

/-- Helper: the deduplicated key list is empty exactly when the key list
is. -/
theorem dedup_keep_first_nil_iff (l : List (String × String)) :
    dedup_keep_first [] l = [] ↔ l = [] := by
  cases l with
  | nil => simp [dedup_keep_first]
  | cons a l => simp [dedup_keep_first]

/-- Helper: the keys of the grouped aggregation, in output order, are the
first-occurrence deduplication of the row keys. -/
theorem aggregate_rows_keys (rows : List RecipeIngredientRow) :
    (aggregate_rows rows).map (fun e => (e.name, e.unit)) =
      dedup_keep_first [] (rows.map row_key) := by
  simp [aggregate_rows, List.map_map, Function.comp_def, Prod.mk.eta]

/-- Helper: each grouped row carries the sum of the amounts of the rows
that share its key. -/
theorem aggregate_rows_total (rows : List RecipeIngredientRow) (e : AggRow)
    (he : e ∈ aggregate_rows rows) :
    e.total_amount =
      ((rows.filter (fun r => row_key r == (e.name, e.unit))).map
        (fun r => r.amount)).sum := by
  rcases List.mem_map.mp he with ⟨k, hk, rfl⟩
  rfl

/-- Helper: every subscription-table state reachable through the
constrained storage layer holds no row with author = subscriber. -/
theorem sub_reach_no_self (rows : List (Nat × Nat)) (h : SubReach rows) :
    ∀ p ∈ rows, p.1 ≠ p.2 := by
  induction h with
  | nil => simp
  | ins rows a s rows2 hr hins ih =>
      unfold subscription_table_insert at hins
      by_cases hab : (a == s) = true
      · simp [hab] at hins
      · by_cases hdup : rows.any (fun p => p.1 == a && p.2 == s) = true
        · simp [hab, hdup] at hins
        · simp [hab, hdup] at hins
          intro p hp
          rw [← hins] at hp
          rcases List.mem_append.mp hp with hin | hone
          · exact ih p hin
          · have : p = (a, s) := by simpa using hone
            subst this
            simpa using hab
  | del rows f hr ih =>
      intro p hp
      exact ih p (List.mem_filter.mp hp).1

/-- Helper: the rows `_add_ingredients` builds for a recipe all carry
that recipe's id. -/
theorem filter_new_rows_self (rid : Nat) (l : List IngredientInput) :
    (l.map (fun it => (⟨rid, it.ingredient, it.amount⟩ : RecipeIngredientRow))).filter
        (fun row => row.recipe == rid) =
      l.map (fun it => ⟨rid, it.ingredient, it.amount⟩) := by
  induction l with
  | nil => rfl
  | cons a l ih => simp [ih]

/-- Helper: none of the rows `_add_ingredients` builds for a recipe
belongs to another recipe. -/
theorem filter_new_rows_other (rid : Nat) (l : List IngredientInput) :
    (l.map (fun it => (⟨rid, it.ingredient, it.amount⟩ : RecipeIngredientRow))).filter
        (fun row => !(row.recipe == rid)) = [] := by
  induction l with
  | nil => rfl
  | cons a l ih => simp [ih]

/-! ## The claims -/

/-- C1: evaluation of `redirect_to_recipe` at the failing input.  The
claim says resolving a token no recipe carries fails with NotFound (a
client error, not a server fault); the code's blanket
`except Exception` catches the `Http404` from `get_object_or_404` and
returns the 500 internal-error response instead, so the missing-token
path is never a NotFound and never a redirect.  Resolving a token a
recipe does carry redirects to the canonical URL containing its id. -/
theorem redirect_missing_short_link_is_500 :
    redirect_to_recipe c1_store "http://h" "zzz" =
      HttpResult.jsonError 500 "Не удалось перенаправить по короткой ссылке" ∧
    (∀ url, redirect_to_recipe c1_store "http://h" "zzz" ≠ HttpResult.redirect url) ∧
    redirect_to_recipe c1_store "http://h" "abc" =
      HttpResult.redirect "http://h/recipes/7/" := by
  have h1 : redirect_to_recipe c1_store "http://h" "zzz" =
      HttpResult.jsonError 500 "Не удалось перенаправить по короткой ссылке" := by
    decide
  refine ⟨h1, ?_, by decide⟩
  intro url h
  rw [h1] at h
  exact HttpResult.noConfusion h

/-- C2: recipe creation together with its ingredient and tag
associations, run inside the request-scoped transaction (modelled from
the spec, see `recipe_create_tx`), is atomic all-or-nothing: whatever
statement faults (injected via `ok`) and wherever short-link generation
fails, an error leaves the caller's store unchanged, and success leaves
exactly the new recipe row, its tag rows and one `RecipeIngredient` row
per payload item. -/
theorem recipe_create_atomic (ok : Nat → Bool) (draw : Nat → String) (db : Store)
    (author : Nat) (r : Recipe) (tags : List Nat)
    (ingredients : List IngredientInput) :
    (∀ e, (recipe_create_tx ok draw db author r tags ingredients).2 = some e →
      (recipe_create_tx ok draw db author r tags ingredients).1 = db) ∧
    ((recipe_create_tx ok draw db author r tags ingredients).2 = none →
      ∃ rr : Recipe,
        rr.id = r.id ∧ rr.author = author ∧ rr.name = r.name ∧ rr.text = r.text ∧
        rr.cooking_time = r.cooking_time ∧ rr.image = r.image ∧
        (recipe_create_tx ok draw db author r tags ingredients).1 =
          { db with
              recipes := db.recipes ++ [rr]
              recipe_tags := db.recipe_tags.filter (fun p => !(p.1 == r.id))
                ++ tags.map (fun t => (r.id, t))
              recipe_ingredients := db.recipe_ingredients
                ++ ingredients.map (fun it => ⟨r.id, it.ingredient, it.amount⟩) }) := by
  constructor
  · intro e he
    unfold recipe_create_tx at he ⊢
    cases hb : recipe_create_body ok draw db author r tags ingredients with
    | mk s oe =>
        cases oe with
        | none => rw [hb] at he; simp at he
        | some e2 => rfl
  · intro hn
    unfold recipe_create_tx at hn ⊢
    cases hb : recipe_create_body ok draw db author r tags ingredients with
    | mk s oe =>
        cases oe with
        | some e2 => rw [hb] at hn; simp at hn
        | none =>
            unfold recipe_create_body at hb
            by_cases h0 : ok 0 = true
            · rw [if_pos h0] at hb
              cases hs : recipe_save db draw { r with author := author } with
              | error ge => rw [hs] at hb; simp at hb
              | ok db1 =>
                  simp only [hs] at hb
                  by_cases h1 : ok 1 = true
                  · rw [if_pos h1] at hb
                    rcases recipe_save_shape db draw _ db1 hs with
                      ⟨rr, hdb1, hid, hname, htext, hct, himg, hauth⟩
                    have h2 : (add_ingredients_loop ok 2 r.id
                        (tags_set db1 r.id tags) ingredients).2 = none := by
                      rw [hb]
                    have hres := add_ingredients_loop_ok ok r.id ingredients 2
                      (tags_set db1 r.id tags) h2
                    have hs1 : s = (add_ingredients_loop ok 2 r.id
                        (tags_set db1 r.id tags) ingredients).1 := by
                      rw [hb]
                    refine ⟨rr, hid, hauth, hname, htext, hct, himg, ?_⟩
                    show s = _
                    rw [hs1, hres, hdb1]
                    simp [tags_set, recipe_insert]
                  · rw [if_neg h1] at hb
                    simp at hb
            · rw [if_neg h0] at hb
              simp at hb

/-- C3: the shopping-cart aggregation returns the 400 EmptyCart response
exactly when the user's cart yields no rows (in particular for an empty
cart); the aggregated rows are the `RecipeIngredient` rows of the
recipes in the user's cart; the output has one entry per distinct
(name, measurement_unit) pair of those rows — no duplicate keys, and a
key appears exactly when some cart row carries it — and each entry's
`total_amount` is the sum of the amounts of its group. -/
theorem download_shopping_cart_aggregates (db : Store) (user : Nat) :
    (download_shopping_cart db user =
        DownloadResult.jsonError 400 "Список покупок пуст" ↔
      cart_rows db user = []) ∧
    (∀ r : RecipeIngredientRow,
      r ∈ cart_rows db user ↔
        r ∈ db.recipe_ingredients ∧ (user, r.recipe) ∈ db.shopping_cart) ∧
    ((aggregate_rows (cart_rows db user)).map (fun e => (e.name, e.unit))).Nodup ∧
    (∀ k : String × String,
      k ∈ (aggregate_rows (cart_rows db user)).map (fun e => (e.name, e.unit)) ↔
        k ∈ (cart_rows db user).map row_key) ∧
    (∀ e ∈ aggregate_rows (cart_rows db user),
      e.total_amount =
        (((cart_rows db user).filter (fun r => row_key r == (e.name, e.unit))).map
          (fun r => r.amount)).sum) := by
  refine ⟨?_, ?_, ?_, ?_, ?_⟩
  · constructor
    · intro h
      by_contra hne
      have hagg : aggregate_rows (cart_rows db user) ≠ [] := by
        intro h0
        have hkeys := aggregate_rows_keys (cart_rows db user)
        rw [h0] at hkeys
        have hnil := (dedup_keep_first_nil_iff _).mp hkeys.symm
        exact hne (by simpa using hnil)
      rcases List.exists_cons_of_ne_nil hagg with ⟨e, es, heq⟩
      simp [download_shopping_cart, heq] at h
    · intro h
      simp [download_shopping_cart, h, aggregate_rows, dedup_keep_first]
  · intro r
    simp only [cart_rows, List.mem_flatMap, List.mem_filter]
    constructor
    · rintro ⟨p, ⟨hpmem, hpu⟩, hr, hrr⟩
      simp only [beq_iff_eq] at hpu hrr
      refine ⟨hr, ?_⟩
      have hp : (user, r.recipe) = p := by
        rw [← hpu, hrr]
      rw [hp]
      exact hpmem
    · rintro ⟨hr, hc⟩
      exact ⟨(user, r.recipe), ⟨hc, by simp⟩, hr, by simp⟩
  · rw [aggregate_rows_keys]
    exact nodup_dedup_keep_first _ []
  · intro k
    rw [aggregate_rows_keys, mem_dedup_keep_first]
    simp
  · intro e he
    exact aggregate_rows_total _ e he

/-- C4 (amended): the output order of the aggregation is the
first-occurrence order of the (name, unit) keys in the row sequence the
storage returns — the code applies no ordering of its own, so the
rendered order is a function of (and only of) the returned row
sequence, not a sort by ingredient name. -/
theorem download_order_first_occurrence (db db2 : Store) (user : Nat) :
    (aggregate_rows (cart_rows db user)).map (fun e => (e.name, e.unit)) =
      dedup_keep_first [] ((cart_rows db user).map row_key) ∧
    (cart_rows db user = cart_rows db2 user →
      download_shopping_cart db user = download_shopping_cart db2 user) := by
  refine ⟨aggregate_rows_keys _, ?_⟩
  intro h
  simp only [download_shopping_cart, h]

/-- C4 counterexample: two stores whose tables are equal as multisets —
the same cart rows inserted in a different order — render the report
rows in different orders, so the output ordering is not deterministic
regardless of the insertion order of the underlying rows. -/
theorem download_order_depends_on_insertion_order :
    c3_store.shopping_cart.Perm c4_store.shopping_cart ∧
    c3_store.recipe_ingredients = c4_store.recipe_ingredients ∧
    c3_store.recipes = c4_store.recipes ∧
    c3_store.recipe_tags = c4_store.recipe_tags ∧
    c3_store.favorites = c4_store.favorites ∧
    c3_store.subscriptions = c4_store.subscriptions ∧
    download_shopping_cart c3_store 1 ≠ download_shopping_cart c4_store 1 := by
  refine ⟨by decide, rfl, rfl, rfl, rfl, rfl, by decide⟩

/-- C5: when every candidate the generator draws collides with an
existing short link, generation stops in the raising branch after
exactly 10 draws (the `attempt` budget), and saving a recipe whose
short link is empty fails with the generation error instead of
persisting any row. -/
theorem short_link_generation_exhausts (db : Store) (draw : Nat → String) (r : Recipe)
    (hall : ∀ i, i < 10 → short_link_taken db (draw i) = true)
    (hempty : r.short_link = "") :
    get_short_link (short_link_taken db) draw 10 = (none, 10) ∧
    recipe_save db draw r = Except.error GenError.linkGenerationFailed := by
  have hloop : short_link_loop (short_link_taken db) draw 0 10 = (none, 10) := by
    have := short_link_loop_all_collide (short_link_taken db) draw 10 0
      (by intro j hj; simpa using hall j hj)
    simpa using this
  refine ⟨hloop, ?_⟩
  simp [recipe_save, hempty, get_short_link, hloop]

/-- C5 at a concrete input: a stub draw that always returns the one
taken link. -/
theorem short_link_generation_exhausts_witness :
    get_short_link (short_link_taken c5_store) (fun _ => "xxxxxxxxxx") 10 = (none, 10) ∧
    recipe_save c5_store (fun _ => "xxxxxxxxxx") c5_recipe =
      Except.error GenError.linkGenerationFailed :=
  short_link_generation_exhausts c5_store (fun _ => "xxxxxxxxxx") c5_recipe
    (by decide) rfl

/-- C6 (amended): for Favorite and ShoppingCart, for every (actor,
target) pair — self pairs included — the first add when the pair is
absent succeeds and creates exactly one row, and a second add of the
same pair fails with AlreadyExists without touching the store; for
Subscription the same holds whenever actor and target differ (a self
pair is rejected with SelfReference even when absent, see the
counterexample).  Each relation's statement assumes only that relation's
own absence. -/
theorem membership_add_semantics (db : Store) (u t : Nat) :
    ((u, t) ∉ db.favorites →
      favorite_add db (some u) t =
        Except.ok { db with favorites := db.favorites ++ [(u, t)] } ∧
      (db.favorites ++ [(u, t)]).countP (fun p => p.1 == u && p.2 == t) = 1 ∧
      favorite_add { db with favorites := db.favorites ++ [(u, t)] } (some u) t =
        Except.error MembershipError.alreadyExists) ∧
    ((u, t) ∉ db.shopping_cart →
      shopping_cart_add db (some u) t =
        Except.ok { db with shopping_cart := db.shopping_cart ++ [(u, t)] } ∧
      (db.shopping_cart ++ [(u, t)]).countP (fun p => p.1 == u && p.2 == t) = 1 ∧
      shopping_cart_add { db with shopping_cart := db.shopping_cart ++ [(u, t)] }
          (some u) t =
        Except.error MembershipError.alreadyExists) ∧
    (u ≠ t → (t, u) ∉ db.subscriptions →
      subscription_add db (some u) t =
        Except.ok { db with subscriptions := db.subscriptions ++ [(t, u)] } ∧
      (db.subscriptions ++ [(t, u)]).countP (fun p => p.1 == t && p.2 == u) = 1 ∧
      subscription_add { db with subscriptions := db.subscriptions ++ [(t, u)] }
          (some u) t =
        Except.error MembershipError.alreadyExists) := by
  refine ⟨?_, ?_, ?_⟩
  · intro hfav
    have hfa : db.favorites.any (fun p => p.1 == u && p.2 == t) = false := by
      simp only [List.any_eq_false]
      intro p hp
      simp only [Bool.and_eq_true, beq_iff_eq, not_and]
      intro h1 h2
      exact hfav (by rw [← h1, ← h2]; simpa using hp)
    have hfc : db.favorites.countP (fun p => p.1 == u && p.2 == t) = 0 := by
      rw [List.countP_eq_zero]
      intro p hp
      have := List.any_eq_false.mp hfa p hp
      simpa using this
    refine ⟨?_, ?_, ?_⟩
    · simp [favorite_add, hfa]
    · simp [List.countP_append, hfc, List.countP_cons]
    · simp [favorite_add]
  · intro hcart
    have hca : db.shopping_cart.any (fun p => p.1 == u && p.2 == t) = false := by
      simp only [List.any_eq_false]
      intro p hp
      simp only [Bool.and_eq_true, beq_iff_eq, not_and]
      intro h1 h2
      exact hcart (by rw [← h1, ← h2]; simpa using hp)
    have hcc : db.shopping_cart.countP (fun p => p.1 == u && p.2 == t) = 0 := by
      rw [List.countP_eq_zero]
      intro p hp
      have := List.any_eq_false.mp hca p hp
      simpa using this
    refine ⟨?_, ?_, ?_⟩
    · simp [shopping_cart_add, hca]
    · simp [List.countP_append, hcc, List.countP_cons]
    · simp [shopping_cart_add]
  · intro hne hsub
    have hsa : db.subscriptions.any (fun p => p.1 == t && p.2 == u) = false := by
      simp only [List.any_eq_false]
      intro p hp
      simp only [Bool.and_eq_true, beq_iff_eq, not_and]
      intro h1 h2
      exact hsub (by rw [← h1, ← h2]; simpa using hp)
    have hsc : db.subscriptions.countP (fun p => p.1 == t && p.2 == u) = 0 := by
      rw [List.countP_eq_zero]
      intro p hp
      have := List.any_eq_false.mp hsa p hp
      simpa using this
    refine ⟨?_, ?_, ?_⟩
    · simp [subscription_add, hsa, hne]
    · simp [List.countP_append, hsc, List.countP_cons]
    · simp [subscription_add, hne]

/-- C6 at a concrete input: user 1 and target 1 over the empty store —
the self pair, which the Favorite and ShoppingCart statements now cover
(the Subscription part asks actor ≠ target and so says nothing here). -/
theorem membership_add_semantics_witness :
    ((1, 1) ∉ store0.favorites →
      favorite_add store0 (some 1) 1 =
        Except.ok { store0 with favorites := store0.favorites ++ [(1, 1)] } ∧
      (store0.favorites ++ [(1, 1)]).countP
        (fun p : Nat × Nat => p.1 == 1 && p.2 == 1) = 1 ∧
      favorite_add { store0 with favorites := store0.favorites ++ [(1, 1)] }
          (some 1) 1 =
        Except.error MembershipError.alreadyExists) ∧
    ((1, 1) ∉ store0.shopping_cart →
      shopping_cart_add store0 (some 1) 1 =
        Except.ok { store0 with shopping_cart := store0.shopping_cart ++ [(1, 1)] } ∧
      (store0.shopping_cart ++ [(1, 1)]).countP
        (fun p : Nat × Nat => p.1 == 1 && p.2 == 1) = 1 ∧
      shopping_cart_add
          { store0 with shopping_cart := store0.shopping_cart ++ [(1, 1)] }
          (some 1) 1 =
        Except.error MembershipError.alreadyExists) ∧
    ((1 : Nat) ≠ 1 → (1, 1) ∉ store0.subscriptions →
      subscription_add store0 (some 1) 1 =
        Except.ok { store0 with subscriptions := store0.subscriptions ++ [(1, 1)] } ∧
      (store0.subscriptions ++ [(1, 1)]).countP
        (fun p : Nat × Nat => p.1 == 1 && p.2 == 1) = 1 ∧
      subscription_add
          { store0 with subscriptions := store0.subscriptions ++ [(1, 1)] }
          (some 1) 1 =
        Except.error MembershipError.alreadyExists) :=
  membership_add_semantics store0 1 1

/-- C6 counterexample: in the empty store the (1, 1) subscription pair is
absent, yet the first `add` does not succeed — it fails with
SelfReference — so the claim's universal first-add-succeeds statement
fails for Subscription self pairs. -/
theorem subscription_self_add_rejected_when_absent :
    store0.subscriptions = [] ∧
    subscription_add store0 (some 1) 1 = Except.error MembershipError.selfReference := by
  exact ⟨rfl, rfl⟩

/-- C7: removing a present (actor, target) pair deletes its rows and
succeeds, and removing an absent pair fails with the zero-rows-deleted
error (the spec's NotFound, raised as a ValidationError) rather than
silently succeeding, for all three remove handlers: the favorites
delete handler, the shopping-cart delete handler and the unsubscribe
handler. -/
theorem membership_remove_semantics (db : Store) (u t : Nat) :
    ((u, t) ∈ db.favorites →
      delete_from_favorites db u t =
        Except.ok { db with favorites :=
          db.favorites.filter (fun p => !(p.1 == u && p.2 == t)) } ∧
      (u, t) ∉ db.favorites.filter (fun p => !(p.1 == u && p.2 == t))) ∧
    ((u, t) ∉ db.favorites →
      delete_from_favorites db u t = Except.error MembershipError.notFound) ∧
    ((u, t) ∈ db.shopping_cart →
      delete_from_shopping_cart db u t =
        Except.ok { db with shopping_cart :=
          db.shopping_cart.filter (fun p => !(p.1 == u && p.2 == t)) } ∧
      (u, t) ∉ db.shopping_cart.filter (fun p => !(p.1 == u && p.2 == t))) ∧
    ((u, t) ∉ db.shopping_cart →
      delete_from_shopping_cart db u t = Except.error MembershipError.notFound) ∧
    ((t, u) ∈ db.subscriptions →
      unsubscribe db u t =
        Except.ok { db with subscriptions :=
          db.subscriptions.filter (fun p => !(p.1 == t && p.2 == u)) } ∧
      (t, u) ∉ db.subscriptions.filter (fun p => !(p.1 == t && p.2 == u))) ∧
    ((t, u) ∉ db.subscriptions →
      unsubscribe db u t = Except.error MembershipError.notFound) := by
  refine ⟨?_, ?_, ?_, ?_, ?_, ?_⟩
  · intro hm
    have hpos : 0 < db.favorites.countP (fun p => p.1 == u && p.2 == t) :=
      List.countP_pos_iff.mpr ⟨(u, t), hm, by simp⟩
    constructor
    · simp [delete_from_favorites, Nat.pos_iff_ne_zero.mp hpos]
    · simp [List.mem_filter]
  · intro hm
    have hz : db.favorites.countP (fun p => p.1 == u && p.2 == t) = 0 := by
      rw [List.countP_eq_zero]
      intro p hp
      simp only [Bool.and_eq_true, beq_iff_eq, not_and]
      intro h1 h2
      exact absurd (by rw [← h1, ← h2]; simpa using hp) hm
    simp [delete_from_favorites, hz]
  · intro hm
    have hpos : 0 < db.shopping_cart.countP (fun p => p.1 == u && p.2 == t) :=
      List.countP_pos_iff.mpr ⟨(u, t), hm, by simp⟩
    constructor
    · simp [delete_from_shopping_cart, Nat.pos_iff_ne_zero.mp hpos]
    · simp [List.mem_filter]
  · intro hm
    have hz : db.shopping_cart.countP (fun p => p.1 == u && p.2 == t) = 0 := by
      rw [List.countP_eq_zero]
      intro p hp
      simp only [Bool.and_eq_true, beq_iff_eq, not_and]
      intro h1 h2
      exact absurd (by rw [← h1, ← h2]; simpa using hp) hm
    simp [delete_from_shopping_cart, hz]
  · intro hm
    have hpos : 0 < db.subscriptions.countP (fun p => p.1 == t && p.2 == u) :=
      List.countP_pos_iff.mpr ⟨(t, u), hm, by simp⟩
    constructor
    · simp [unsubscribe, Nat.pos_iff_ne_zero.mp hpos]
    · simp [List.mem_filter]
  · intro hm
    have hz : db.subscriptions.countP (fun p => p.1 == t && p.2 == u) = 0 := by
      rw [List.countP_eq_zero]
      intro p hp
      simp only [Bool.and_eq_true, beq_iff_eq, not_and]
      intro h1 h2
      exact absurd (by rw [← h1, ← h2]; simpa using hp) hm
    simp [unsubscribe, hz]

/-- C8: every subscription-table state reachable through the storage
layer satisfies subscriber ≠ author row-wise; a self-subscription `add`
fails with SelfReference at the application level, and a raw insert of
a self row is rejected by the `self_subscribe` CheckConstraint at the
data-integrity level even when the application check is bypassed. -/
theorem subscription_no_self_invariant (rows : List (Nat × Nat)) (h : SubReach rows) :
    (∀ p ∈ rows, p.1 ≠ p.2) ∧
    (∀ (db : Store) (u : Nat),
      subscription_add db (some u) u = Except.error MembershipError.selfReference) ∧
    (∀ (rows2 : List (Nat × Nat)) (u : Nat),
      subscription_table_insert rows2 u u = Except.error DbError.checkViolation) := by
  refine ⟨sub_reach_no_self rows h, ?_, ?_⟩
  · intro db u; simp [subscription_add]
  · intro rows2 u; simp [subscription_table_insert]

/-- C8 at a concrete input: the empty table, reachable by construction. -/
theorem subscription_no_self_invariant_witness :
    (∀ p ∈ ([] : List (Nat × Nat)), p.1 ≠ p.2) ∧
    (∀ (db : Store) (u : Nat),
      subscription_add db (some u) u = Except.error MembershipError.selfReference) ∧
    (∀ (rows2 : List (Nat × Nat)) (u : Nat),
      subscription_table_insert rows2 u u = Except.error DbError.checkViolation) :=
  subscription_no_self_invariant [] SubReach.nil

/-- C9: saving a recipe whose `short_link` is already non-empty inserts
the recipe exactly as given — the generation branch is skipped, the
existing short link is not regenerated or overwritten, and every other
field is persisted untouched. -/
theorem save_preserves_short_link (db : Store) (draw : Nat → String) (r : Recipe)
    (h : r.short_link ≠ "") :
    recipe_save db draw r = Except.ok (recipe_insert db r) := by
  have hb : (r.short_link == "") = false := by simpa using h
  simp [recipe_save, hb]

/-- C9 at a concrete input: a recipe that already carries link "zyx". -/
theorem save_preserves_short_link_witness :
    recipe_save c1_store (fun _ => "q") c9_recipe =
      Except.ok (recipe_insert c1_store c9_recipe) :=
  save_preserves_short_link c1_store (fun _ => "q") c9_recipe (by decide)

/-- C10: a recipe update with an ingredients value replaces the recipe's
`RecipeIngredient` rows wholesale (afterwards the recipe's rows are
exactly the new payload's rows and other recipes' rows are untouched);
with ingredients omitted the ingredient table is unchanged, and with
tags omitted the recipe's tag set is unchanged. -/
theorem recipe_update_replaces_ingredients (db : Store) (rid : Nat)
    (scalar : Recipe → Recipe) (tags : Option (List Nat))
    (ingredients : Option (List IngredientInput)) :
    (∀ l, ingredients = some l →
      (recipe_update db rid scalar tags ingredients).recipe_ingredients.filter
          (fun row => row.recipe == rid) =
        l.map (fun it => ⟨rid, it.ingredient, it.amount⟩) ∧
      (recipe_update db rid scalar tags ingredients).recipe_ingredients.filter
          (fun row => !(row.recipe == rid)) =
        db.recipe_ingredients.filter (fun row => !(row.recipe == rid))) ∧
    (ingredients = none →
      (recipe_update db rid scalar tags ingredients).recipe_ingredients =
        db.recipe_ingredients) ∧
    (tags = none →
      (recipe_update db rid scalar tags ingredients).recipe_tags =
        db.recipe_tags) := by
  refine ⟨?_, ?_, ?_⟩
  · intro l hl
    subst hl
    cases tags with
    | none =>
        constructor
        · simp [recipe_update, List.filter_append, filter_new_rows_self,
            List.filter_filter]
        · simp [recipe_update, List.filter_append, filter_new_rows_other,
            List.filter_filter]
    | some ts =>
        constructor
        · simp [recipe_update, tags_set, List.filter_append, filter_new_rows_self,
            List.filter_filter]
        · simp [recipe_update, tags_set, List.filter_append, filter_new_rows_other,
            List.filter_filter]
  · intro hl
    subst hl
    cases tags with
    | none => simp [recipe_update]
    | some ts => simp [recipe_update, tags_set]
  · intro ht
    subst ht
    cases ingredients with
    | none => simp [recipe_update]
    | some l => simp [recipe_update]

end Foodgram
